import Mathlib

/-!
# Verification of the InvoiceGeneratorPro calculation and rendering core

This file gives a shallow embedding, in Lean 4, of the financially relevant
parts of the InvoiceGeneratorPro sources:

* `utils/calculations.py` — `CalculationEngine`, `CurrencyFormatter`,
  `DateCalculator`;
* `database/models.py` — `InvoiceItem`, `Invoice` (totals, item removal,
  overdue flag);
* `pdf_generator/templates.py` and `pdf_generator/invoice_pdf.py` — the
  document content produced by the Modern / Classic / Minimal templates and
  the default generator, and the template registry.

Modelling conventions:

* Python `float` and `decimal.Decimal` values are modelled as exact rationals
  (`ℚ`).  The Python code converts floats to `Decimal` through
  `Decimal(str(x))`, and `str` of a float is its shortest decimal
  representation, so for the decimal-valued quantities these functions are
  meant for, the float → Decimal round trip is the identity and the exact
  rational model is faithful.  Where a claim depends on a value that is not
  exactly representable in binary floating point, the concrete inputs chosen
  below are dyadic rationals (e.g. `0.125 = 1/8`), on which binary floats are
  exact as well.
* `decimal.Decimal.quantize(Decimal('0.01'), rounding=ROUND_HALF_UP)` is
  `roundHalfUp2` (ties away from zero), and Python's built-in
  `round(x, 2)` (used in `database/models.py`) is `pyRound2`
  (ties to even), both at 2 decimal places.
* Exceptions are modelled with `Except PyExc`; the string-accepting entry
  point of `calculate_line_total` models `Decimal`'s string constructor,
  whose failure is `decimal.InvalidOperation` — a subclass of
  `ArithmeticError`, *not* of `ValueError` or `TypeError`.
-/

namespace InvoiceGen

/-! ## Rounding primitives -/

/-- Cents of `q` under `decimal.ROUND_HALF_UP` quantization to 2 places:
round `q * 100` to the nearest integer, ties away from zero. -/
def roundHalfUpCents (q : ℚ) : ℤ :=
  if 0 ≤ q then ⌊q * 100 + 1/2⌋ else -⌊(-q) * 100 + 1/2⌋

/-- `Decimal.quantize(Decimal('0.01'), rounding=ROUND_HALF_UP)`. -/
def roundHalfUp2 (q : ℚ) : ℚ := (roundHalfUpCents q : ℚ) / 100

/-- Cents of `q` rounded to the nearest integer with ties to even — the
rounding of Python's built-in `round(x, 2)` on an exactly-represented `x`. -/
def roundHalfEvenCents (q : ℚ) : ℤ :=
  let f : ℤ := ⌊q * 100⌋
  if q * 100 - f < 1/2 then f
  else if 1/2 < q * 100 - f then f + 1
  else if f % 2 = 0 then f else f + 1

/-- Python's built-in `round(x, 2)` (banker's rounding) on an exact value. -/
def pyRound2 (q : ℚ) : ℚ := (roundHalfEvenCents q : ℚ) / 100

/-- `q` is representable with at most 2 decimal places (a whole number of
cents). -/
def isCent (q : ℚ) : Prop := ∃ n : ℤ, q = (n : ℚ) / 100

theorem isCent_def {q : ℚ} (n : ℤ) (h : q = (n : ℚ) / 100) : isCent q := ⟨n, h⟩

theorem floor_intCast_add_half (n : ℤ) : ⌊(n : ℚ) + 1/2⌋ = n := by
  rw [Int.floor_eq_iff]
  refine ⟨by linarith, by linarith⟩

theorem roundHalfUpCents_cent (n : ℤ) : roundHalfUpCents ((n : ℚ) / 100) = n := by
  unfold roundHalfUpCents
  have h100 : ((n : ℚ) / 100) * 100 = (n : ℚ) := by field_simp
  by_cases h : 0 ≤ ((n : ℚ) / 100)
  · rw [if_pos h, h100, floor_intCast_add_half]
  · rw [if_neg h]
    have : (-((n : ℚ) / 100)) * 100 = ((-n : ℤ) : ℚ) := by push_cast; field_simp
    rw [this, floor_intCast_add_half]
    ring

/-- Rounding half-up fixes values that are already whole cents. -/
theorem roundHalfUp2_cent {q : ℚ} (h : isCent q) : roundHalfUp2 q = q := by
  obtain ⟨n, rfl⟩ := h
  unfold roundHalfUp2
  rw [roundHalfUpCents_cent]

theorem roundHalfUp2_isCent (q : ℚ) : isCent (roundHalfUp2 q) :=
  ⟨roundHalfUpCents q, rfl⟩

theorem isCent_add {a b : ℚ} (ha : isCent a) (hb : isCent b) : isCent (a + b) := by
  obtain ⟨m, rfl⟩ := ha
  obtain ⟨n, rfl⟩ := hb
  exact ⟨m + n, by push_cast; ring⟩

theorem isCent_zero : isCent 0 := ⟨0, by norm_num⟩

/-! ## `CalculationEngine` (utils/calculations.py)

The numeric path of the four static methods, on exact decimal inputs.  Each
method converts its inputs to `Decimal`, combines them exactly, and quantizes
to 2 places with `ROUND_HALF_UP`.
-/

/-- `CalculationEngine.calculate_line_total(quantity, rate)`:
`Decimal(str(quantity)) * Decimal(str(rate))`, quantized half-up to cents. -/
def calculate_line_total (quantity rate : ℚ) : ℚ :=
  roundHalfUp2 (quantity * rate)

/-- `CalculationEngine.calculate_subtotal(line_totals)`: exact running
`Decimal` sum (a `for` loop, i.e. a left fold starting from `0.00`), then
quantized half-up to cents. -/
def calculate_subtotal (line_totals : List ℚ) : ℚ :=
  roundHalfUp2 (line_totals.foldl (· + ·) 0)

/-- `CalculationEngine.calculate_tax_amount(subtotal, tax_rate)`. -/
def calculate_tax_amount (subtotal tax_rate : ℚ) : ℚ :=
  roundHalfUp2 (subtotal * tax_rate)

/-- `CalculationEngine.calculate_total(subtotal, tax_amount)`. -/
def calculate_total (subtotal tax_amount : ℚ) : ℚ :=
  roundHalfUp2 (subtotal + tax_amount)

/-- A `{'quantity': ..., 'rate': ...}` item dict as consumed by
`calculate_invoice_totals`. -/
structure ItemInput where
  quantity : ℚ
  rate : ℚ
deriving DecidableEq

/-- The `line_totals` list built by
`CalculationEngine.calculate_invoice_totals`. -/
def invoice_line_totals (items : List ItemInput) : List ℚ :=
  items.map fun it => calculate_line_total it.quantity it.rate

/-- The `subtotal` computed by `CalculationEngine.calculate_invoice_totals`. -/
def invoice_subtotal (items : List ItemInput) : ℚ :=
  calculate_subtotal (invoice_line_totals items)

/-- Result record of `calculate_invoice_total` (module-level helper in
utils/calculations.py). -/
structure InvoiceTotals where
  line_totals : List ℚ
  subtotal : ℚ
  tax_amount : ℚ
  total : ℚ
deriving DecidableEq

/-- `calculate_invoice_total(items, tax_rate)`: line totals, subtotal from the
rounded line totals, tax from the rounded subtotal, total from the rounded
subtotal and rounded tax. -/
def calculate_invoice_total (items : List ItemInput) (tax_rate : ℚ) : InvoiceTotals :=
  let subtotal := invoice_subtotal items
  let tax_amount := calculate_tax_amount subtotal tax_rate
  let total := calculate_total subtotal tax_amount
  { line_totals := invoice_line_totals items
    subtotal := subtotal
    tax_amount := tax_amount
    total := total }

theorem foldl_add_eq_sum (l : List ℚ) (a : ℚ) : l.foldl (· + ·) a = a + l.sum := by
  induction l generalizing a with
  | nil => simp
  | cons x xs ih => simp [List.foldl_cons, ih, List.sum_cons]; ring

theorem calculate_subtotal_eq_round_sum (l : List ℚ) :
    calculate_subtotal l = roundHalfUp2 l.sum := by
  unfold calculate_subtotal
  rw [foldl_add_eq_sum, zero_add]

theorem isCent_sum {l : List ℚ} (h : ∀ x ∈ l, isCent x) : isCent l.sum := by
  induction l with
  | nil => simpa using isCent_zero
  | cons x xs ih =>
    rw [List.sum_cons]
    exact isCent_add (h x (by simp)) (ih fun y hy => h y (List.mem_cons_of_mem _ hy))

/-! ## Data model (database/models.py) -/

/-- A Python `datetime.datetime`, abstracted to a calendar day index plus a
time of day in seconds.  `timedelta(days=n)` adds to the day index;
`.date()` comparisons compare day indices. -/
structure PyDateTime where
  day : ℤ
  tod : ℕ
deriving DecidableEq

/-- `invoice_date + timedelta(days=n)`. -/
def addDays (d : PyDateTime) (n : ℤ) : PyDateTime := { d with day := d.day + n }

/-- The `Client` dataclass (fields used by the rendering core). -/
structure ClientModel where
  name : String
  email : String
  phone : String
  address : String
  city : String
  state : String
  zip_code : String
  country : String
deriving DecidableEq

/-- `Client.full_address`: address, then the comma-joined city/state/zip
group, then country — each part only if non-empty, newline-joined. -/
def Client_full_address (c : ClientModel) : String :=
  let city_state_zip := [c.city, c.state, c.zip_code].filter (· ≠ "")
  let address_parts :=
    (if c.address ≠ "" then [c.address] else []) ++
    (if city_state_zip ≠ [] then [String.intercalate ", " city_state_zip] else []) ++
    (if c.country ≠ "" then [c.country] else [])
  String.intercalate "\n" address_parts

/-- The `InvoiceItem` dataclass. -/
structure InvoiceItem where
  description : String
  quantity : ℚ
  rate : ℚ
  amount : ℚ
deriving DecidableEq

/-- `InvoiceItem.total`: `round(self.quantity * self.rate, 2)` — Python's
built-in `round`, i.e. banker's rounding, *not* `ROUND_HALF_UP`. -/
def itemTotal (it : InvoiceItem) : ℚ := pyRound2 (it.quantity * it.rate)

/-- The `Invoice` dataclass (fields used by the claims and the renderers). -/
structure Invoice where
  id : Option ℕ
  invoice_number : String
  client : Option ClientModel
  invoice_date : Option PyDateTime
  due_date : Option PyDateTime
  status : String
  items : List InvoiceItem
  subtotal : ℚ
  tax_rate : ℚ
  tax_amount : ℚ
  total : ℚ
  notes : String
  payment_terms : String
  currency : String
  updated_date : PyDateTime
  company_name : String
  company_address : String
  company_phone : String
  company_email : String
  company_website : String
deriving DecidableEq

/-- `Invoice.calculate_totals`: `round(sum(item.total ...), 2)`,
`round(subtotal * tax_rate, 2)`, `round(subtotal + tax_amount, 2)` — all with
Python's built-in `round` — and stamps `updated_date = datetime.now()`
(passed as `now`). -/
def Invoice_calculate_totals (inv : Invoice) (now : PyDateTime) : Invoice :=
  let subtotal := pyRound2 ((inv.items.map itemTotal).foldl (· + ·) 0)
  let tax_amount := pyRound2 (subtotal * inv.tax_rate)
  let total := pyRound2 (subtotal + tax_amount)
  { inv with
    subtotal := subtotal
    tax_amount := tax_amount
    total := total
    updated_date := now }

/-- `Invoice.remove_item(item_index)`: pops the item and recomputes totals
only when `0 <= item_index < len(self.items)`; otherwise does nothing. -/
def Invoice_remove_item (inv : Invoice) (item_index : ℤ) (now : PyDateTime) : Invoice :=
  if 0 ≤ item_index ∧ item_index < (inv.items.length : ℤ) then
    Invoice_calculate_totals
      { inv with items := inv.items.eraseIdx item_index.toNat } now
  else inv

/-- `Invoice.is_overdue`: status is `"Sent"`, the due date is set, and
today's date is strictly after the due date.  `today` is the calendar day of
`datetime.now()`. -/
def Invoice_is_overdue (inv : Invoice) (today : ℤ) : Bool :=
  inv.status == "Sent" &&
    (match inv.due_date with
     | none => false
     | some dd => decide (dd.day < today))

/-! ## Claim C1 -/

/-- C1: for all non-negative quantity and rate,
`CalculationEngine.calculate_line_total(quantity, rate)` is exactly
`quantity * rate` rounded half-up to 2 decimal places. -/
theorem claim_C1_line_total_half_up (quantity rate : ℚ)
    (hq : 0 ≤ quantity) (hr : 0 ≤ rate) :
    calculate_line_total quantity rate =
      (⌊quantity * rate * 100 + 1/2⌋ : ℚ) / 100 := by
  unfold calculate_line_total roundHalfUp2 roundHalfUpCents
  rw [if_pos (mul_nonneg hq hr)]

theorem claim_C1_witness :
    0 ≤ (3 : ℚ) ∧ 0 ≤ (27/8 : ℚ) ∧
      calculate_line_total 3 (27/8) = (⌊(3 : ℚ) * (27/8) * 100 + 1/2⌋ : ℚ) / 100 :=
  ⟨by norm_num, by norm_num,
    claim_C1_line_total_half_up 3 (27/8) (by norm_num) (by norm_num)⟩

/-! ## Claim C2 -/

/-- C2: on a list of already-rounded (2-decimal) line totals,
`calculate_subtotal` returns the half-up rounding of their exact sum, which
equals the exact sum itself (sum-of-rounded); and on the item list
`[(1, 0.005), (1, 0.005)]` the engine's subtotal is `0.02` — the sum of the
individually rounded line totals — while rounding the sum of the unrounded
products would give `0.01`. -/
theorem claim_C2_subtotal_sum_of_rounded :
    (∀ l : List ℚ, (∀ x ∈ l, isCent x) →
      calculate_subtotal l = roundHalfUp2 l.sum ∧ calculate_subtotal l = l.sum) ∧
    invoice_subtotal [⟨1, 1/200⟩, ⟨1, 1/200⟩] = 2/100 ∧
    roundHalfUp2 ((1 : ℚ) * (1/200) + 1 * (1/200)) = 1/100 := by
  refine ⟨fun l h => ⟨calculate_subtotal_eq_round_sum l, ?_⟩, ?_, ?_⟩
  · rw [calculate_subtotal_eq_round_sum, roundHalfUp2_cent (isCent_sum h)]
  · norm_num [invoice_subtotal, invoice_line_totals, calculate_subtotal,
      calculate_line_total, roundHalfUp2, roundHalfUpCents]
  · norm_num [roundHalfUp2, roundHalfUpCents]

theorem claim_C2_witness :
    (∀ x ∈ [(7 : ℚ)/100, 2], isCent x) ∧
      (calculate_subtotal [(7 : ℚ)/100, 2] = roundHalfUp2 ([(7 : ℚ)/100, 2].sum) ∧
        calculate_subtotal [(7 : ℚ)/100, 2] = [(7 : ℚ)/100, 2].sum) :=
  ⟨by
    intro x hx
    rcases List.mem_cons.mp hx with h | h
    · exact ⟨7, by rw [h]; norm_num⟩
    · exact ⟨200, by simp at h; rw [h]; norm_num⟩,
    claim_C2_subtotal_sum_of_rounded.1 [(7 : ℚ)/100, 2] (by
      intro x hx
      rcases List.mem_cons.mp hx with h | h
      · exact ⟨7, by rw [h]; norm_num⟩
      · exact ⟨200, by simp at h; rw [h]; norm_num⟩)⟩

/-! ## Claim C3 -/

/-- C3 (amended): the `CalculationEngine` pipeline rounds half-up at every
step and stores every intermediate already rounded to 2 places before the
next step; but `Invoice.calculate_totals` and `InvoiceItem.total` in
database/models.py use Python's built-in `round` (ties to even), which at
quantity 1, rate 0.125 produces 0.12 where round-half-up produces 0.13. -/
theorem claim_C3_rounding_policy :
    (∀ (items : List ItemInput) (tax_rate : ℚ),
      (∀ t ∈ (calculate_invoice_total items tax_rate).line_totals, isCent t) ∧
      (calculate_invoice_total items tax_rate).subtotal
        = roundHalfUp2 (calculate_invoice_total items tax_rate).line_totals.sum ∧
      isCent (calculate_invoice_total items tax_rate).subtotal ∧
      (calculate_invoice_total items tax_rate).tax_amount
        = roundHalfUp2 ((calculate_invoice_total items tax_rate).subtotal * tax_rate) ∧
      isCent (calculate_invoice_total items tax_rate).tax_amount ∧
      (calculate_invoice_total items tax_rate).total
        = roundHalfUp2 ((calculate_invoice_total items tax_rate).subtotal
            + (calculate_invoice_total items tax_rate).tax_amount) ∧
      isCent (calculate_invoice_total items tax_rate).total) ∧
    (∀ (inv : Invoice) (now : PyDateTime),
      (∀ it ∈ inv.items, itemTotal it = pyRound2 (it.quantity * it.rate)) ∧
      (Invoice_calculate_totals inv now).subtotal
        = pyRound2 (inv.items.map itemTotal).sum ∧
      (Invoice_calculate_totals inv now).tax_amount
        = pyRound2 ((Invoice_calculate_totals inv now).subtotal * inv.tax_rate) ∧
      (Invoice_calculate_totals inv now).total
        = pyRound2 ((Invoice_calculate_totals inv now).subtotal
            + (Invoice_calculate_totals inv now).tax_amount)) ∧
    pyRound2 ((1 : ℚ) * (1/8)) = 12/100 ∧ roundHalfUp2 ((1 : ℚ) * (1/8)) = 13/100 := by
  refine ⟨fun items tax_rate => ?_, fun inv now => ?_, ?_, ?_⟩
  · refine ⟨?_, ?_, ?_, rfl, roundHalfUp2_isCent _, rfl, roundHalfUp2_isCent _⟩
    · intro t ht
      simp only [calculate_invoice_total, invoice_line_totals, List.mem_map] at ht
      obtain ⟨it, _, rfl⟩ := ht
      exact roundHalfUp2_isCent _
    · simp only [calculate_invoice_total, invoice_subtotal]
      exact calculate_subtotal_eq_round_sum _
    · exact roundHalfUp2_isCent _
  · refine ⟨fun it _ => rfl, ?_, rfl, rfl⟩
    simp only [Invoice_calculate_totals]
    rw [foldl_add_eq_sum, zero_add]
  · norm_num [pyRound2, roundHalfEvenCents]
  · norm_num [roundHalfUp2, roundHalfUpCents]

/-- C3 counterexample: the claim says every totals computation — including
`InvoiceItem.total` — rounds half-up; but `InvoiceItem.total` of quantity 1,
rate 0.125 is 0.12 (Python `round`, ties to even; 0.125 and 1.0 are exact
binary floats), while rounding 1 × 0.125 half-up gives 0.13. -/
theorem claim_C3_counterexample :
    itemTotal { description := "Widget", quantity := 1, rate := 1/8, amount := 1/8 }
        = 12/100 ∧
      roundHalfUp2 ((1 : ℚ) * (1/8)) = 13/100 := by
  constructor
  · norm_num [itemTotal, pyRound2, roundHalfEvenCents]
  · norm_num [roundHalfUp2, roundHalfUpCents]

/-! ## Claim C9 -/

/-- C9: `Invoice.remove_item` with an index outside `[0, len(items))` is a
no-op: the whole invoice record — items, subtotal, tax_amount, total,
updated_date — is unchanged. -/
theorem claim_C9_remove_item_out_of_range (inv : Invoice) (item_index : ℤ)
    (now : PyDateTime)
    (h : ¬ (0 ≤ item_index ∧ item_index < (inv.items.length : ℤ))) :
    Invoice_remove_item inv item_index now = inv := by
  unfold Invoice_remove_item
  rw [if_neg h]

/-- A concrete invoice used to instantiate the hypothesis-bearing claims. -/
def sampleItem : InvoiceItem :=
  { description := "Consulting", quantity := 10, rate := 150, amount := 1500 }

def sampleNow : PyDateTime := ⟨738100, 0⟩

def sampleInvoice : Invoice :=
  { id := some 7
    invoice_number := "INV-0007"
    client := none
    invoice_date := some ⟨738000, 0⟩
    due_date := some ⟨738030, 0⟩
    status := "Draft"
    items := [sampleItem]
    subtotal := 1500
    tax_rate := 0
    tax_amount := 0
    total := 1500
    notes := ""
    payment_terms := "Net 30"
    currency := "USD"
    updated_date := ⟨738000, 0⟩
    company_name := "Acme"
    company_address := ""
    company_phone := ""
    company_email := ""
    company_website := "" }

theorem claim_C9_witness :
    ¬ (0 ≤ (5 : ℤ) ∧ (5 : ℤ) < (sampleInvoice.items.length : ℤ)) ∧
      Invoice_remove_item sampleInvoice 5 sampleNow = sampleInvoice :=
  ⟨by norm_num [sampleInvoice],
    claim_C9_remove_item_out_of_range sampleInvoice 5 sampleNow
      (by norm_num [sampleInvoice])⟩

/-! ## Claim C10 -/

/-- C10: `Invoice.is_overdue` is false whenever the status is not `"Sent"`,
whatever the due date; and it can be true only when the status is `"Sent"`,
the due date is set, and today is strictly after the due date. -/
theorem claim_C10_overdue_only_sent (inv : Invoice) (today : ℤ) :
    (inv.status ≠ "Sent" → Invoice_is_overdue inv today = false) ∧
    (Invoice_is_overdue inv today = true →
      inv.status = "Sent" ∧ ∃ dd, inv.due_date = some dd ∧ dd.day < today) := by
  constructor
  · intro hs
    simp [Invoice_is_overdue, hs]
  · intro h
    rcases hdd : inv.due_date with _ | dd
    · rw [Invoice_is_overdue, hdd] at h
      simp at h
    · rw [Invoice_is_overdue, hdd] at h
      simp at h
      exact ⟨h.1, dd, rfl, h.2⟩

theorem claim_C10_witness :
    sampleInvoice.status ≠ "Sent" ∧
      Invoice_is_overdue sampleInvoice 999999 = false :=
  ⟨by decide,
    (claim_C10_overdue_only_sent sampleInvoice 999999).1 (by decide)⟩

/-! ## String parsing of Python numeric literals

`calculate_line_total` converts its arguments with `Decimal(str(x))`.  When
the argument is a malformed string such as `"abc"`, `Decimal` raises
`decimal.InvalidOperation` — a subclass of `ArithmeticError` — while the
method's `except` clause catches only `ValueError` and `TypeError`.  The
parser below models the finite-number fragment of `Decimal`'s string syntax
(optional surrounding whitespace, optional sign, digits with at most one
point, optional exponent); the special values `Infinity`/`NaN` are outside
every claim's inputs.
-/

/-- Python exceptions relevant to the calculation engine. -/
inductive PyExc where
  | invalidOperation
  | valueError
  | typeError
deriving DecidableEq

/-- `str.strip()` on a character list. -/
def pyStrip (l : List Char) : List Char :=
  ((l.dropWhile Char.isWhitespace).reverse.dropWhile Char.isWhitespace).reverse

/-- Consume a run of ASCII digits, returning the accumulated value, the
number of digits consumed, and the rest. -/
def parseDigitsAux (acc cnt : ℕ) : List Char → ℕ × ℕ × List Char
  | [] => (acc, cnt, [])
  | c :: cs =>
    if c.isDigit then parseDigitsAux (10 * acc + (c.toNat - 48)) (cnt + 1) cs
    else (acc, cnt, c :: cs)

/-- An unsigned decimal coefficient `digits [. digits]` (at least one digit),
returning its value and the unconsumed rest. -/
def parseCoefficient (l : List Char) : Option (ℚ × List Char) :=
  let (ip, ic, rest) := parseDigitsAux 0 0 l
  match rest with
  | '.' :: r2 =>
    let (fp, fc, rest2) := parseDigitsAux 0 0 r2
    if ic + fc = 0 then none
    else some ((ip : ℚ) + (fp : ℚ) / 10 ^ fc, rest2)
  | _ => if ic = 0 then none else some ((ip : ℚ), rest)

/-- An exponent: optional sign then a nonempty digit run consuming the whole
rest. -/
def parseExpNat (l : List Char) : Option ℕ :=
  let (v, c, rest) := parseDigitsAux 0 0 l
  if c = 0 then none else if rest ≠ [] then none else some v

def parseExpInt (l : List Char) : Option ℤ :=
  match l with
  | '+' :: t => (parseExpNat t).map (fun n => (n : ℤ))
  | '-' :: t => (parseExpNat t).map (fun n => -(n : ℤ))
  | _ => (parseExpNat l).map (fun n => (n : ℤ))

/-- `Decimal(s)` for a finite-number string, as an exact rational; `none`
models `decimal.InvalidOperation` (conversion syntax error). -/
def pyDecimalOfString (s : String) : Option ℚ :=
  let l := pyStrip s.toList
  let sgn : ℚ := match l with | '-' :: _ => -1 | _ => 1
  let l1 := match l with | '-' :: t => t | '+' :: t => t | _ => l
  match parseCoefficient l1 with
  | none => none
  | some (coeff, rest) =>
    match rest with
    | [] => some (sgn * coeff)
    | 'e' :: r => (parseExpInt r).map fun e => sgn * coeff * (10 : ℚ) ^ e
    | 'E' :: r => (parseExpInt r).map fun e => sgn * coeff * (10 : ℚ) ^ e
    | _ => none

/-- The `try` body of `calculate_line_total` on string arguments:
`Decimal(str(quantity)) * Decimal(str(rate))` quantized half-up, raising
`InvalidOperation` on a conversion syntax error. -/
def calculate_line_total_body (quantity rate : String) : Except PyExc ℚ :=
  match pyDecimalOfString quantity with
  | none => .error .invalidOperation
  | some q =>
    match pyDecimalOfString rate with
    | none => .error .invalidOperation
    | some r => .ok (roundHalfUp2 (q * r))

/-- `except (ValueError, TypeError): return fallback` — any other exception
propagates. -/
def pyCatchValueTypeError (body : Except PyExc ℚ) (fallback : ℚ) : Except PyExc ℚ :=
  match body with
  | .error .valueError => .ok fallback
  | .error .typeError => .ok fallback
  | other => other

/-- `CalculationEngine.calculate_line_total` invoked with string arguments:
the `try` body wrapped in the method's `except (ValueError, TypeError)`
handler returning `0.0`. -/
def calculate_line_total_str (quantity rate : String) : Except PyExc ℚ :=
  pyCatchValueTypeError (calculate_line_total_body quantity rate) 0

/-! ## Claim C4 -/

/-- C4 (code bug): on the malformed quantity `"abc"`,
`calculate_line_total` does *not* return `0.00`: `Decimal("abc")` raises
`decimal.InvalidOperation`, which is an `ArithmeticError`, and the method
catches only `(ValueError, TypeError)`, so the exception escapes to the
caller. -/
theorem claim_C4_malformed_raises :
    calculate_line_total_str "abc" "1.0" = .error .invalidOperation ∧
      ∀ q : ℚ, calculate_line_total_str "abc" "1.0" ≠ .ok q := by
  constructor
  · rfl
  · intro q h
    rw [show calculate_line_total_str "abc" "1.0" = .error .invalidOperation from rfl] at h
    exact Except.noConfusion h

/-! ## `DateCalculator.calculate_due_date` (utils/calculations.py) -/

/-- `payment_terms.startswith("Net ")`. -/
def startsWithNet : List Char → Bool
  | 'N' :: 'e' :: 't' :: ' ' :: _ => true
  | _ => false

/-- `str.split()` with no argument: split on whitespace runs, no empty
pieces. -/
def splitWsAux : List Char → List Char → List (List Char)
  | cur, [] => if cur = [] then [] else [cur.reverse]
  | cur, c :: cs =>
    if c.isWhitespace then
      if cur = [] then splitWsAux [] cs else cur.reverse :: splitWsAux [] cs
    else splitWsAux (c :: cur) cs

def pySplitWs (s : String) : List String :=
  (splitWsAux [] s.toList).map String.mk

/-- Digit run of `int()`, allowing single underscores between digits. -/
def pyIntDigitsAux (acc : ℕ) : List Char → Option ℕ
  | [] => some acc
  | '_' :: rest =>
    match rest with
    | c :: cs =>
      if c.isDigit then pyIntDigitsAux (10 * acc + (c.toNat - 48)) cs else none
    | [] => none
  | c :: cs =>
    if c.isDigit then pyIntDigitsAux (10 * acc + (c.toNat - 48)) cs else none

def pyIntDigits : List Char → Option ℕ
  | [] => none
  | c :: cs => if c.isDigit then pyIntDigitsAux (c.toNat - 48) cs else none

/-- Python `int(s)` on a token: optional surrounding whitespace, optional
sign, ASCII digits with single underscore separators. -/
def pyIntOfString (s : String) : Option ℤ :=
  match pyStrip s.toList with
  | '+' :: t => (pyIntDigits t).map (fun n => (n : ℤ))
  | '-' :: t => (pyIntDigits t).map (fun n => -(n : ℤ))
  | l => (pyIntDigits l).map (fun n => (n : ℤ))

/-- `DateCalculator.calculate_due_date(invoice_date, payment_terms)`:
`"Net <N>"` adds N days (N from `int(payment_terms.split()[1])`, where both
`IndexError` and `ValueError` fall back to 30); `"Due on Receipt"` returns
the date unchanged; anything else adds 30 days. -/
def calculate_due_date (invoice_date : PyDateTime) (payment_terms : String) : PyDateTime :=
  if startsWithNet payment_terms.toList then
    match (pySplitWs payment_terms)[1]? with
    | none => addDays invoice_date 30
    | some tok =>
      match pyIntOfString tok with
      | none => addDays invoice_date 30
      | some n => addDays invoice_date n
  else if payment_terms = "Due on Receipt" then invoice_date
  else addDays invoice_date 30

/-! ## Claim C6 -/

/-- C6: the due-date policy — `"Net <N>"` (a terms string starting with
`"Net "` whose second whitespace token parses as the integer N) gives
`d + N` days; the literal `"Due on Receipt"` gives `d` unchanged; every
other string, and every `"Net ..."` whose token is missing or fails integer
parsing, gives `d + 30` uniformly; in particular `"Net 30"` ↦ +30,
`"Due on Receipt"` ↦ d, `"garbage"` ↦ +30, `"Net abc"` ↦ +30. -/
theorem claim_C6_due_date_policy (d : PyDateTime) :
    (∀ (t tok : String) (n : ℤ), startsWithNet t.toList = true →
      (pySplitWs t)[1]? = some tok → pyIntOfString tok = some n →
      calculate_due_date d t = addDays d n) ∧
    calculate_due_date d "Due on Receipt" = d ∧
    (∀ t : String, startsWithNet t.toList = false → t ≠ "Due on Receipt" →
      calculate_due_date d t = addDays d 30) ∧
    (∀ t : String, startsWithNet t.toList = true →
      ((pySplitWs t)[1]? = none ∨
        ∃ tok, (pySplitWs t)[1]? = some tok ∧ pyIntOfString tok = none) →
      calculate_due_date d t = addDays d 30) ∧
    calculate_due_date d "Net 30" = addDays d 30 ∧
    calculate_due_date d "garbage" = addDays d 30 ∧
    calculate_due_date d "Net abc" = addDays d 30 := by
  refine ⟨?_, rfl, ?_, ?_, rfl, rfl, rfl⟩
  · intro t tok n h1 h2 h3
    have h1' : startsWithNet t.data = true := h1
    simp [calculate_due_date, h1', h2, h3]
  · intro t h1 h2
    have h1' : startsWithNet t.data = false := h1
    simp [calculate_due_date, h1', h2]
  · intro t h1 h2
    have h1' : startsWithNet t.data = true := h1
    rcases h2 with h2 | ⟨tok, h2, h3⟩
    · simp [calculate_due_date, h1', h2]
    · simp [calculate_due_date, h1', h2, h3]

theorem claim_C6_witness :
    (startsWithNet ("Net 45".toList) = true ∧
      (pySplitWs "Net 45")[1]? = some "45" ∧
      pyIntOfString "45" = some 45 ∧
      calculate_due_date ⟨100, 0⟩ "Net 45" = addDays ⟨100, 0⟩ 45) ∧
    (startsWithNet ("garbage".toList) = false ∧ "garbage" ≠ "Due on Receipt" ∧
      calculate_due_date ⟨100, 0⟩ "garbage" = addDays ⟨100, 0⟩ 30) ∧
    (startsWithNet ("Net abc".toList) = true ∧
      (∃ tok, (pySplitWs "Net abc")[1]? = some tok ∧ pyIntOfString tok = none) ∧
      calculate_due_date ⟨100, 0⟩ "Net abc" = addDays ⟨100, 0⟩ 30) :=
  ⟨⟨rfl, rfl, rfl,
      (claim_C6_due_date_policy ⟨100, 0⟩).1 "Net 45" "45" 45 rfl rfl rfl⟩,
    ⟨rfl, by decide,
      (claim_C6_due_date_policy ⟨100, 0⟩).2.2.1 "garbage" rfl (by decide)⟩,
    ⟨rfl, ⟨"abc", rfl, rfl⟩,
      (claim_C6_due_date_policy ⟨100, 0⟩).2.2.2.1 "Net abc" rfl
        (Or.inr ⟨"abc", rfl, rfl⟩)⟩⟩

/-! ## `CurrencyFormatter` (utils/calculations.py)

`format_currency` renders `f"{symbol}{amount:,.2f}"` (or
`f"-{symbol}{abs(amount):,.2f}"` for negatives); `parse_currency_input`
strips every character that is not an ASCII digit, `.` or `-`, parses the
remainder with `float()` (whose accepted fragment on the stripped alphabet
is `[-] digits [. digits]` with at least one digit), and rounds to 2 places
with Python's built-in `round`.
-/

def digitChar (d : ℕ) : Char := Char.ofNat (48 + d)

/-- Decimal digits of `n`, most significant first, by fuelled structural
recursion so that the kernel can evaluate it. -/
def natDigitsF : ℕ → ℕ → List Char
  | 0, _ => []
  | fuel + 1, n =>
    if n < 10 then [digitChar n]
    else natDigitsF fuel (n / 10) ++ [digitChar (n % 10)]

def natDigits (n : ℕ) : List Char := natDigitsF (n + 1) n

/-- Exactly two digits, zero padded (used for the cents part, `n < 100`). -/
def pad2 (n : ℕ) : List Char := [digitChar (n / 10), digitChar (n % 10)]

/-- Exactly three digits, zero padded (a thousands group, `n < 1000`). -/
def pad3 (n : ℕ) : List Char :=
  [digitChar (n / 100), digitChar (n / 10 % 10), digitChar (n % 10)]

/-- Decimal digits of `n` with a comma every three digits from the right —
the integer part of Python's `{:,}` format. -/
def commaGroupF : ℕ → ℕ → List Char
  | 0, _ => []
  | fuel + 1, n =>
    if n < 1000 then natDigits n
    else commaGroupF fuel (n / 1000) ++ ',' :: pad3 (n % 1000)

def commaGroup (n : ℕ) : List Char := commaGroupF (n + 1) n

/-- `f"{v:,.2f}"` for non-negative `v`: round to cents (floats format with
round-half-even), thousands separators, always exactly 2 decimals. -/
def pyFormatComma2f (v : ℚ) : List Char :=
  let c := (roundHalfEvenCents v).toNat
  commaGroup (c / 100) ++ '.' :: pad2 (c % 100)

/-- The `CURRENCY_SYMBOLS` table from config.py. -/
def CURRENCY_SYMBOLS : List (String × String) :=
  [("USD", "$"), ("EUR", "€"), ("GBP", "£"), ("CAD", "C$"), ("AUD", "A$")]

/-- `CurrencyFormatter.format_currency(amount, currency)`:
`f"-{symbol}{abs(amount):,.2f}"` when `amount < 0`, else
`f"{symbol}{amount:,.2f}"` (string concatenation built as one character
list). -/
def format_currency (amount : ℚ) (currency : String) : String :=
  let symbol := (CURRENCY_SYMBOLS.lookup currency).getD "$"
  if amount < 0 then String.mk ('-' :: (symbol.data ++ pyFormatComma2f (-amount)))
  else String.mk (symbol.data ++ pyFormatComma2f amount)

/-- `f"{v:.2f}"` (same as above without grouping). -/
def pyFormat2f (v : ℚ) : String :=
  if v < 0 then
    String.mk ('-' :: (natDigits ((roundHalfEvenCents (-v)).toNat / 100) ++
      '.' :: pad2 ((roundHalfEvenCents (-v)).toNat % 100)))
  else
    String.mk (natDigits ((roundHalfEvenCents v).toNat / 100) ++
      '.' :: pad2 ((roundHalfEvenCents v).toNat % 100))

/-- `CurrencyFormatter.format_percentage(rate)`: `f"{rate * 100:.2f}%"`. -/
def format_percentage (rate : ℚ) : String := pyFormat2f (rate * 100) ++ "%"

/-- The characters kept by `re.sub(r'[^\d.-]', '', s)` (ASCII fragment). -/
def keepChar (c : Char) : Bool := c.isDigit || c = '.' || c = '-'

/-- `float()` on a string over the stripped alphabet `[0-9.-]`, unsigned
part: `digits [. digits]` with at least one digit, consuming the whole
string. -/
def parseUnsignedDecimal (l : List Char) : Option ℚ :=
  let (ip, ic, rest) := parseDigitsAux 0 0 l
  match rest with
  | '.' :: r2 =>
    let (fp, fc, rest2) := parseDigitsAux 0 0 r2
    if rest2 ≠ [] then none
    else if ic + fc = 0 then none
    else some ((ip : ℚ) + (fp : ℚ) / 10 ^ fc)
  | [] => if ic = 0 then none else some (ip : ℚ)
  | _ => none

/-- `float()` on a stripped string: optional single leading `-`. -/
def pyFloatOfCleaned (l : List Char) : Option ℚ :=
  if l.head? = some '-' then (parseUnsignedDecimal l.tail).map (fun q => -q)
  else parseUnsignedDecimal l

/-- `CurrencyFormatter.parse_currency_input(input_str)`. -/
def parse_currency_input (input_str : String) : ℚ :=
  if input_str = "" then 0
  else
    match pyFloatOfCleaned (input_str.data.filter keepChar) with
    | none => 0
    | some amount => pyRound2 amount

/-! ### Digit rendering lemmas -/

theorem natDigitsF_irrel : ∀ f g n : ℕ, n < f → n < g →
    natDigitsF f n = natDigitsF g n := by
  intro f
  induction f with
  | zero => intro g n hf; omega
  | succ f ih =>
    intro g n hf hg
    cases g with
    | zero => omega
    | succ g =>
      simp only [natDigitsF]
      by_cases h : n < 10
      · simp [h]
      · rw [if_neg h, if_neg h, ih g (n / 10) (by omega) (by omega)]

theorem natDigits_lt {n : ℕ} (h : n < 10) : natDigits n = [digitChar n] := by
  simp [natDigits, natDigitsF, h]

theorem natDigits_ge {n : ℕ} (h : 10 ≤ n) :
    natDigits n = natDigits (n / 10) ++ [digitChar (n % 10)] := by
  unfold natDigits
  conv_lhs => rw [natDigitsF]
  rw [if_neg (by omega)]
  rw [natDigitsF_irrel n (n / 10 + 1) (n / 10) (by omega) (by omega)]

theorem commaGroupF_irrel : ∀ f g n : ℕ, n < f → n < g →
    commaGroupF f n = commaGroupF g n := by
  intro f
  induction f with
  | zero => intro g n hf; omega
  | succ f ih =>
    intro g n hf hg
    cases g with
    | zero => omega
    | succ g =>
      simp only [commaGroupF]
      by_cases h : n < 1000
      · simp [h]
      · rw [if_neg h, if_neg h, ih g (n / 1000) (by omega) (by omega)]

theorem commaGroup_lt {n : ℕ} (h : n < 1000) : commaGroup n = natDigits n := by
  simp [commaGroup, commaGroupF, h]

theorem commaGroup_ge {n : ℕ} (h : 1000 ≤ n) :
    commaGroup n = commaGroup (n / 1000) ++ ',' :: pad3 (n % 1000) := by
  unfold commaGroup
  conv_lhs => rw [commaGroupF]
  rw [if_neg (by omega)]
  rw [commaGroupF_irrel n (n / 1000 + 1) (n / 1000) (by omega) (by omega)]

theorem digitChar_isDigit {d : ℕ} (h : d < 10) : (digitChar d).isDigit = true := by
  interval_cases d <;> decide

theorem digitChar_toNat {d : ℕ} (h : d < 10) : (digitChar d).toNat = 48 + d := by
  interval_cases d <;> decide

theorem digitChar_ne_dash {d : ℕ} (h : d < 10) : digitChar d ≠ '-' := by
  interval_cases d <;> decide

theorem keepChar_digitChar {d : ℕ} (h : d < 10) : keepChar (digitChar d) = true := by
  simp [keepChar, digitChar_isDigit h]

theorem natDigits_all_digits (n : ℕ) : ∀ c ∈ natDigits n, c.isDigit = true := by
  induction n using Nat.strong_induction_on with
  | _ n ih =>
    by_cases h : n < 10
    · rw [natDigits_lt h]
      intro c hc
      simp at hc
      subst hc
      exact digitChar_isDigit h
    · rw [natDigits_ge (by omega)]
      intro c hc
      rcases List.mem_append.mp hc with hc | hc
      · exact ih (n / 10) (by omega) c hc
      · simp at hc
        subst hc
        exact digitChar_isDigit (by omega)

theorem natDigits_ne_nil (n : ℕ) : natDigits n ≠ [] := by
  by_cases h : n < 10
  · rw [natDigits_lt h]; simp
  · rw [natDigits_ge (by omega)]; simp

/-! ### Parsing the formatted string back -/

theorem natDigits_length_pos (n : ℕ) : 0 < (natDigits n).length :=
  List.length_pos.mpr (natDigits_ne_nil n)

theorem parseDigitsAux_nil (acc cnt : ℕ) : parseDigitsAux acc cnt [] = (acc, cnt, []) :=
  rfl

theorem parseDigitsAux_stop {c : Char} (h : c.isDigit = false) (acc cnt : ℕ)
    (r : List Char) : parseDigitsAux acc cnt (c :: r) = (acc, cnt, c :: r) := by
  simp [parseDigitsAux, h]

theorem parseDigitsAux_natDigits (n : ℕ) : ∀ (acc cnt : ℕ) (rest : List Char),
    parseDigitsAux acc cnt (natDigits n ++ rest)
      = parseDigitsAux (acc * 10 ^ (natDigits n).length + n)
          (cnt + (natDigits n).length) rest := by
  induction n using Nat.strong_induction_on with
  | _ n ih =>
    intro acc cnt rest
    by_cases h : n < 10
    · rw [natDigits_lt h, List.singleton_append, List.length_singleton]
      simp only [parseDigitsAux]
      rw [if_pos (digitChar_isDigit h), digitChar_toNat h,
        Nat.add_sub_cancel_left, pow_one, mul_comm acc 10]
    · rw [natDigits_ge (show 10 ≤ n by omega), List.append_assoc,
        ih (n / 10) (by omega), List.singleton_append]
      simp only [parseDigitsAux]
      rw [if_pos (digitChar_isDigit (show n % 10 < 10 by omega)),
        digitChar_toNat (show n % 10 < 10 by omega), Nat.add_sub_cancel_left,
        List.length_append, List.length_singleton]
      rw [pow_succ, ← mul_assoc]
      have harg : 10 * (acc * 10 ^ (natDigits (n / 10)).length + n / 10) + n % 10
          = acc * 10 ^ (natDigits (n / 10)).length * 10 + n := by
        generalize acc * 10 ^ (natDigits (n / 10)).length = A
        omega
      rw [harg, ← Nat.add_assoc]

theorem parseDigitsAux_pad2 {F : ℕ} (h : F < 100) (acc cnt : ℕ) :
    parseDigitsAux acc cnt (pad2 F) = (100 * acc + F, cnt + 2, []) := by
  unfold pad2
  simp only [parseDigitsAux]
  rw [if_pos (digitChar_isDigit (show F / 10 < 10 by omega)),
    digitChar_toNat (show F / 10 < 10 by omega),
    if_pos (digitChar_isDigit (show F % 10 < 10 by omega)),
    digitChar_toNat (show F % 10 < 10 by omega),
    Nat.add_sub_cancel_left, Nat.add_sub_cancel_left]
  have : 10 * (10 * acc + F / 10) + F % 10 = 100 * acc + F := by omega
  rw [this]

theorem filter_keep_natDigits (n : ℕ) :
    (natDigits n).filter keepChar = natDigits n :=
  List.filter_eq_self.mpr fun c hc => by
    simp [keepChar, natDigits_all_digits n c hc]

theorem pad3_all_keep {m : ℕ} (h : m < 1000) :
    (pad3 m).filter keepChar = pad3 m :=
  List.filter_eq_self.mpr fun c hc => by
    simp only [pad3, List.mem_cons, List.not_mem_nil, or_false] at hc
    rcases hc with rfl | rfl | rfl
    · exact keepChar_digitChar (by omega)
    · exact keepChar_digitChar (by omega)
    · exact keepChar_digitChar (by omega)

theorem natDigits_decomp3 {n : ℕ} (h : 1000 ≤ n) :
    natDigits n = natDigits (n / 1000) ++ pad3 (n % 1000) := by
  rw [natDigits_ge (show 10 ≤ n by omega),
    natDigits_ge (show 10 ≤ n / 10 by omega),
    natDigits_ge (show 10 ≤ n / 10 / 10 by omega)]
  have e1 : n / 10 / 10 / 10 = n / 1000 := by omega
  have e2 : n / 10 / 10 % 10 = n % 1000 / 100 := by omega
  have e3 : n / 10 % 10 = n % 1000 / 10 % 10 := by omega
  have e4 : n % 10 = n % 1000 % 10 := by omega
  rw [e1, e2, e3, e4]
  simp [pad3, List.append_assoc]

theorem filter_keep_commaGroup (n : ℕ) :
    (commaGroup n).filter keepChar = natDigits n := by
  induction n using Nat.strong_induction_on with
  | _ n ih =>
    by_cases h : n < 1000
    · rw [commaGroup_lt h, filter_keep_natDigits]
    · rw [commaGroup_ge (by omega), List.filter_append, List.filter_cons_of_neg
        (by decide : ¬ keepChar ',' = true)]
      rw [ih (n / 1000) (by omega), pad3_all_keep (show n % 1000 < 1000 by omega)]
      exact (natDigits_decomp3 (by omega)).symm

theorem natDigits_head_not_dash (n : ℕ) (rest : List Char) :
    (natDigits n ++ rest).head? ≠ some '-' := by
  obtain ⟨c, l, hc⟩ := List.exists_cons_of_ne_nil (natDigits_ne_nil n)
  rw [hc]
  intro hcontra
  simp at hcontra
  have hd : c.isDigit = true := natDigits_all_digits n c (hc ▸ List.mem_cons_self c l)
  rw [hcontra] at hd
  exact absurd hd (by decide)

theorem parseUnsignedDecimal_body (I F : ℕ) (hF : F < 100) :
    parseUnsignedDecimal (natDigits I ++ '.' :: pad2 F)
      = some ((I : ℚ) + (F : ℚ) / 100) := by
  have h1 : parseDigitsAux 0 0 (natDigits I ++ '.' :: pad2 F)
      = (I, (natDigits I).length, '.' :: pad2 F) := by
    rw [parseDigitsAux_natDigits, parseDigitsAux_stop (by decide)]
    norm_num
  have h2 : parseDigitsAux 0 0 (pad2 F) = (F, 2, []) := by
    have := parseDigitsAux_pad2 hF 0 0
    simpa using this
  have hlen := natDigits_length_pos I
  unfold parseUnsignedDecimal
  rw [h1]
  simp only [h2]
  rw [if_neg (by simp), if_neg (by omega)]
  norm_num

/-- `roundHalfEvenCents` fixes whole-cent values. -/
theorem roundHalfEvenCents_cent (m : ℤ) : roundHalfEvenCents ((m : ℚ) / 100) = m := by
  simp only [roundHalfEvenCents]
  rw [show ((m : ℚ) / 100) * 100 = (m : ℚ) by field_simp, Int.floor_intCast]
  norm_num

/-- Python's `round(x, 2)` fixes whole-cent values. -/
theorem pyRound2_cent {q : ℚ} (h : isCent q) : pyRound2 q = q := by
  obtain ⟨n, rfl⟩ := h
  unfold pyRound2
  rw [roundHalfEvenCents_cent]

theorem pad2_all_keep {F : ℕ} (h : F < 100) :
    (pad2 F).filter keepChar = pad2 F :=
  List.filter_eq_self.mpr fun c hc => by
    simp only [pad2, List.mem_cons, List.not_mem_nil, or_false] at hc
    rcases hc with rfl | rfl
    · exact keepChar_digitChar (by omega)
    · exact keepChar_digitChar (by omega)

theorem cast_div_add_mod_100 (M : ℕ) :
    ((M / 100 : ℕ) : ℚ) + ((M % 100 : ℕ) : ℚ) / 100 = (M : ℚ) / 100 := by
  have hdm : (100 * (M / 100) + M % 100 : ℕ) = M := Nat.div_add_mod M 100
  have h2 : (M : ℚ) = 100 * ((M / 100 : ℕ) : ℚ) + ((M % 100 : ℕ) : ℚ) := by
    exact_mod_cast hdm.symm
  rw [h2]
  ring

/-- Parsing back a formatted cent amount recovers it exactly. -/
theorem parse_format_cent (n : ℤ) :
    parse_currency_input (format_currency ((n : ℚ) / 100) "USD") = (n : ℚ) / 100 := by
  by_cases hneg : (n : ℚ) / 100 < 0
  · have hn : n < 0 := by
      by_contra hc
      push_neg at hc
      have h0 : (0 : ℚ) ≤ (n : ℚ) := by exact_mod_cast hc
      have h1 : (0 : ℚ) ≤ (n : ℚ) / 100 := by positivity
      linarith
    have hM : (((-n).toNat : ℕ) : ℤ) = -n := Int.toNat_of_nonneg (by omega)
    have hMQ : (((-n).toNat : ℕ) : ℚ) = -(n : ℚ) := by exact_mod_cast hM
    have hcents : roundHalfEvenCents (-((n : ℚ) / 100)) = -n := by
      rw [show -((n : ℚ) / 100) = (((-n : ℤ)) : ℚ) / 100 by push_cast; ring]
      exact roundHalfEvenCents_cent (-n)
    have hfmt : format_currency ((n : ℚ) / 100) "USD"
        = String.mk ('-' :: '$' ::
            (commaGroup ((-n).toNat / 100) ++ '.' :: pad2 ((-n).toNat % 100))) := by
      simp only [format_currency, pyFormatComma2f]
      rw [if_pos hneg, hcents]
      rfl
    rw [hfmt]
    have hne : String.mk ('-' :: '$' ::
        (commaGroup ((-n).toNat / 100) ++ '.' :: pad2 ((-n).toNat % 100))) ≠ "" := by
      simp [String.ext_iff]
    have hclean : (String.mk ('-' :: '$' ::
        (commaGroup ((-n).toNat / 100) ++ '.' :: pad2 ((-n).toNat % 100)))).data.filter
          keepChar
        = '-' :: (natDigits ((-n).toNat / 100) ++ '.' :: pad2 ((-n).toNat % 100)) := by
      show ('-' :: '$' ::
          (commaGroup ((-n).toNat / 100) ++ '.' :: pad2 ((-n).toNat % 100))).filter
            keepChar = _
      rw [List.filter_cons_of_pos (by decide), List.filter_cons_of_neg (by decide),
        List.filter_append, filter_keep_commaGroup,
        List.filter_cons_of_pos (by decide),
        pad2_all_keep (show (-n).toNat % 100 < 100 by omega)]
    have hparse : pyFloatOfCleaned ((String.mk ('-' :: '$' ::
        (commaGroup ((-n).toNat / 100) ++ '.' :: pad2 ((-n).toNat % 100)))).data.filter
          keepChar)
        = some ((n : ℚ) / 100) := by
      rw [hclean]
      unfold pyFloatOfCleaned
      simp only [List.head?_cons, List.tail_cons, if_true]
      rw [parseUnsignedDecimal_body _ _ (show (-n).toNat % 100 < 100 by omega)]
      rw [Option.map_some']
      congr 1
      rw [cast_div_add_mod_100, hMQ]
      ring
    unfold parse_currency_input
    rw [if_neg hne, hparse]
    exact pyRound2_cent ⟨n, rfl⟩
  · push_neg at hneg
    have hn : 0 ≤ n := by
      by_contra hc
      push_neg at hc
      have h0 : (n : ℚ) < 0 := by exact_mod_cast hc
      have h1 : (n : ℚ) / 100 < 0 := by
        apply div_neg_of_neg_of_pos h0
        norm_num
      linarith
    have hM : ((n.toNat : ℕ) : ℤ) = n := Int.toNat_of_nonneg hn
    have hMQ : ((n.toNat : ℕ) : ℚ) = (n : ℚ) := by exact_mod_cast hM
    have hcents : roundHalfEvenCents ((n : ℚ) / 100) = n := roundHalfEvenCents_cent n
    have hfmt : format_currency ((n : ℚ) / 100) "USD"
        = String.mk ('$' :: (commaGroup (n.toNat / 100) ++ '.' :: pad2 (n.toNat % 100))) := by
      simp only [format_currency, pyFormatComma2f]
      rw [if_neg (not_lt.mpr hneg), hcents]
      rfl
    rw [hfmt]
    have hne : String.mk ('$' ::
        (commaGroup (n.toNat / 100) ++ '.' :: pad2 (n.toNat % 100))) ≠ "" := by
      simp [String.ext_iff]
    have hclean : (String.mk ('$' ::
        (commaGroup (n.toNat / 100) ++ '.' :: pad2 (n.toNat % 100)))).data.filter keepChar
        = natDigits (n.toNat / 100) ++ '.' :: pad2 (n.toNat % 100) := by
      show ('$' :: (commaGroup (n.toNat / 100) ++ '.' :: pad2 (n.toNat % 100))).filter
          keepChar = _
      rw [List.filter_cons_of_neg (by decide), List.filter_append, filter_keep_commaGroup,
        List.filter_cons_of_pos (by decide),
        pad2_all_keep (show n.toNat % 100 < 100 by omega)]
    have hparse : pyFloatOfCleaned ((String.mk ('$' ::
        (commaGroup (n.toNat / 100) ++ '.' :: pad2 (n.toNat % 100)))).data.filter keepChar)
        = some ((n : ℚ) / 100) := by
      rw [hclean]
      unfold pyFloatOfCleaned
      rw [if_neg (natDigits_head_not_dash _ _),
        parseUnsignedDecimal_body _ _ (show n.toNat % 100 < 100 by omega)]
      congr 1
      rw [cast_div_add_mod_100, hMQ]
    unfold parse_currency_input
    rw [if_neg hne, hparse]
    exact pyRound2_cent ⟨n, rfl⟩

/-! ## Claim C7 -/

/-- C7: for every representable 2-decimal amount x (negative and
thousands-grouped amounts included), parsing the formatted USD string back
recovers x exactly, so formatting again yields the identical string:
`formatCurrency(parseCurrencyInput(formatCurrency(x, "USD")), "USD") ==
formatCurrency(x, "USD")`. -/
theorem claim_C7_currency_roundtrip (x : ℚ) (h : isCent x) :
    parse_currency_input (format_currency x "USD") = x ∧
      format_currency (parse_currency_input (format_currency x "USD")) "USD"
        = format_currency x "USD" := by
  obtain ⟨n, rfl⟩ := h
  refine ⟨parse_format_cent n, ?_⟩
  rw [parse_format_cent n]

theorem claim_C7_witness :
    isCent (-1234567 / 100 : ℚ) ∧
      format_currency
          (parse_currency_input (format_currency (-1234567 / 100 : ℚ) "USD")) "USD"
        = format_currency (-1234567 / 100 : ℚ) "USD" :=
  ⟨⟨-1234567, by norm_num⟩,
    (claim_C7_currency_roundtrip (-1234567 / 100 : ℚ) ⟨-1234567, by norm_num⟩).2⟩

/-! ## Rendered document content (pdf_generator/templates.py, invoice_pdf.py)

The reportlab story is modelled by its content: paragraphs, tables (rows of
cells, a cell being the list of its rendered lines), spacers and horizontal
rules.  Purely visual data (fonts, colors, column widths, paddings, table
styles) and the right-alignment wrapper table around each totals table are
not part of the model; an `Image` flowable is an `image` line. -/

inductive CellLine where
  | text (s : String)
  | image
deriving DecidableEq

/-- A table cell: the list of its rendered lines (a bare string cell is a
single line; a cell holding a list of `Paragraph`s is one line each). -/
abbrev Cell := List CellLine

inductive Elem where
  | para (s : String)
  | table (rows : List (List Cell))
  | spacer
  | hrule
deriving DecidableEq

/-- A plain string cell. -/
def cellS (s : String) : Cell := [CellLine.text s]

/-- `DateCalculator.format_date_for_display` — the `strftime("%B %d, %Y")`
calendar rendering is abstracted to an injective day/time display (no claim
inspects the date text). -/
def format_date_for_display : Option PyDateTime → String
  | none => ""
  | some d => "date " ++ toString d.day ++ "," ++ toString d.tod

/-- `Invoice.formatted_invoice_number`: the invoice number when non-empty,
else `f"INV-{self.id:04d}"` (a `None` id raises in Python; outside the
claims, modelled as id 0). -/
def formatted_invoice_number (inv : Invoice) : String :=
  if inv.invoice_number ≠ "" then inv.invoice_number
  else
    String.mk ("INV-".data ++
      (List.replicate (4 - (natDigits (inv.id.getD 0)).length) '0' ++
        natDigits (inv.id.getD 0)))

/-- `f"{q:g}"` on a quantity: trailing zeros stripped; modelled for decimal
quantities with up to 6 fractional digits (the `%g` exponent regime and
6-significant-digit truncation are outside every claim — no theorem
inspects this string). -/
def pyFormatG (q : ℚ) : String :=
  let m := (⌊|q| * 1000000⌋).toNat
  let intPart := m / 1000000
  let fracPart := m % 1000000
  let fracDigits :=
    ((List.replicate (6 - (natDigits fracPart).length) '0' ++ natDigits fracPart).reverse.dropWhile
      (fun c => c = '0')).reverse
  let body :=
    if fracPart = 0 then natDigits intPart else natDigits intPart ++ '.' :: fracDigits
  if q < 0 then String.mk ('-' :: body) else String.mk body

/-- Address lines: split on newlines, strip each, keep only non-blank lines
(the pattern `for line in addr.split('\n'): if line.strip(): ...`). -/
def addressLines (s : String) : List String :=
  if s ≠ "" then ((s.splitOn "\n").map String.trim).filter (· ≠ "") else []

/-- The 4-column item row `[description, f"{qty:g}", fmt(rate), fmt(total)]`
built identically by `_build_modern_items_table`,
`_build_classic_items_table` and `InvoicePDFGenerator._build_items_table`. -/
def itemRow (currency : String) (it : InvoiceItem) : List Cell :=
  [cellS it.description, cellS (pyFormatG it.quantity),
    cellS (format_currency it.rate currency),
    cellS (format_currency (itemTotal it) currency)]

/-! ### Modern template -/

/-- The `from_info` cell of `ModernTemplate._build_modern_info_section`. -/
def modern_info_from (inv : Invoice) : Cell :=
  CellLine.text "FROM" ::
    ((if inv.company_name ≠ ""
        then [CellLine.text ("<b>" ++ inv.company_name ++ "</b>")] else []) ++
      (addressLines inv.company_address).map CellLine.text ++
      (if inv.company_email ≠ "" then [CellLine.text inv.company_email] else []) ++
      (if inv.company_phone ≠ "" then [CellLine.text inv.company_phone] else []))

/-- The `to_info` cell of `ModernTemplate._build_modern_info_section`. -/
def modern_info_to (inv : Invoice) : Cell :=
  CellLine.text "BILL TO" ::
    (match inv.client with
     | none => []
     | some c =>
       (if c.name ≠ "" then [CellLine.text ("<b>" ++ c.name ++ "</b>")] else []) ++
         (addressLines (Client_full_address c)).map CellLine.text ++
         (if c.email ≠ "" then [CellLine.text c.email] else []) ++
         (if c.phone ≠ "" then [CellLine.text c.phone] else []))

def modern_items_rows (inv : Invoice) : List (List Cell) :=
  [cellS "Description", cellS "Qty", cellS "Rate", cellS "Total"] ::
    inv.items.map (itemRow inv.currency)

def modern_totals_rows (inv : Invoice) : List (List Cell) :=
  [cellS "Subtotal", cellS (format_currency inv.subtotal inv.currency)] ::
    ((if 0 < inv.tax_rate then
        [[cellS ("Tax (" ++ format_percentage inv.tax_rate ++ ")"),
          cellS (format_currency inv.tax_amount inv.currency)]]
      else []) ++
      [[cellS "TOTAL", cellS (format_currency inv.total inv.currency)]])

/-- `ModernTemplate.generate_pdf` up to (and including) the totals section. -/
def modern_main (inv : Invoice) : List Elem :=
  [Elem.para "INVOICE", Elem.spacer,
    Elem.table
      [[cellS ("Invoice #: " ++ formatted_invoice_number inv), cellS ""],
        [cellS ("Date: " ++ format_date_for_display inv.invoice_date), cellS ""],
        [cellS ("Due: " ++ format_date_for_display inv.due_date), cellS ""]],
    Elem.spacer,
    Elem.table [[modern_info_from inv, modern_info_to inv]],
    Elem.spacer,
    Elem.table (modern_items_rows inv),
    Elem.spacer,
    Elem.table (modern_totals_rows inv)]

/-- `ModernTemplate.generate_pdf`: the main sections, then a notes block
only when notes is non-empty; no footer. -/
def modern_story (inv : Invoice) : List Elem :=
  modern_main inv ++
    (if inv.notes ≠ "" then
      [Elem.spacer, Elem.para "Notes", Elem.para inv.notes]
    else [])

/-! ### Classic template -/

def classic_details_rows (inv : Invoice) : List (List Cell) :=
  [[cellS "Invoice Number:", cellS (formatted_invoice_number inv),
      cellS "Invoice Date:", cellS (format_date_for_display inv.invoice_date)],
    [cellS "Payment Terms:", cellS inv.payment_terms,
      cellS "Due Date:", cellS (format_date_for_display inv.due_date)]]

/-- `ClassicTemplate._build_classic_info_section` (a flat list of
paragraphs, `'\n'` replaced by `<br/>`). -/
def classic_info_elems (inv : Invoice) : List Elem :=
  Elem.para "From:" ::
    ((if inv.company_name ≠ "" then [Elem.para inv.company_name] else []) ++
      (if inv.company_address ≠ "" then
        [Elem.para (inv.company_address.replace "\n" "<br/>")] else []) ++
      [Elem.spacer, Elem.para "Bill To:"] ++
      (match inv.client with
       | none => []
       | some c =>
         (if c.name ≠ "" then [Elem.para c.name] else []) ++
           (if Client_full_address c ≠ "" then
             [Elem.para ((Client_full_address c).replace "\n" "<br/>")] else [])))

def classic_items_rows (inv : Invoice) : List (List Cell) :=
  [cellS "Description", cellS "Quantity", cellS "Rate", cellS "Amount"] ::
    inv.items.map (itemRow inv.currency)

def classic_totals_rows (inv : Invoice) : List (List Cell) :=
  [cellS "Subtotal:", cellS (format_currency inv.subtotal inv.currency)] ::
    ((if 0 < inv.tax_rate then
        [[cellS ("Tax (" ++ format_percentage inv.tax_rate ++ "):"),
          cellS (format_currency inv.tax_amount inv.currency)]]
      else []) ++
      [[cellS "Total Amount Due:",
        cellS (format_currency inv.total inv.currency)]])

/-- `ClassicTemplate.generate_pdf`: header, details, parties, items, totals,
then always a closing footer; no notes block. -/
def classic_story (inv : Invoice) : List Elem :=
  [Elem.para "INVOICE", Elem.hrule, Elem.spacer,
    Elem.table (classic_details_rows inv), Elem.spacer] ++
    classic_info_elems inv ++
    [Elem.spacer,
      Elem.table (classic_items_rows inv), Elem.spacer,
      Elem.table (classic_totals_rows inv),
      Elem.spacer, Elem.hrule, Elem.spacer,
      Elem.para "Thank you for your business."]

/-! ### Minimal template -/

def minimal_info_rows (inv : Invoice) : List (List Cell) :=
  [[cellS ("#" ++ formatted_invoice_number inv), cellS ""],
    [cellS (format_date_for_display inv.invoice_date), cellS ""],
    [cellS "", cellS ""]] ++
    (match inv.client with
     | none => []
     | some c =>
       if c.name ≠ "" then [[cellS ("For: " ++ c.name), cellS ""]] else [])

/-- `MinimalTemplate.generate_pdf`: title, info rows, one borderless
`[description, total]` row per item, then a single `Total` row — no party
blocks, no quantity or rate columns, no subtotal or tax rows, no notes, no
footer. -/
def minimal_story (inv : Invoice) : List Elem :=
  [Elem.spacer, Elem.para "Invoice", Elem.spacer,
    Elem.table (minimal_info_rows inv), Elem.spacer] ++
    inv.items.map (fun it =>
      Elem.table [[cellS it.description,
        cellS (format_currency (itemTotal it) inv.currency)]]) ++
    [Elem.spacer,
      Elem.table [[cellS "Total", cellS (format_currency inv.total inv.currency)]]]

/-! ### Default generator (invoice_pdf.py) -/

/-- Company info cell of `InvoicePDFGenerator._format_company_info`. -/
def default_company_cell (inv : Invoice) : Cell :=
  CellLine.text "<b>From:</b>" ::
    ((if inv.company_name ≠ ""
        then [CellLine.text ("<b>" ++ inv.company_name ++ "</b>")] else []) ++
      (addressLines inv.company_address).map CellLine.text ++
      (if inv.company_phone ≠ ""
        then [CellLine.text ("Phone: " ++ inv.company_phone)] else []) ++
      (if inv.company_email ≠ ""
        then [CellLine.text ("Email: " ++ inv.company_email)] else []) ++
      (if inv.company_website ≠ ""
        then [CellLine.text ("Web: " ++ inv.company_website)] else []))

/-- Client info cell of `InvoicePDFGenerator._format_client_info`. -/
def default_client_cell (inv : Invoice) : Cell :=
  CellLine.text "<b>Bill To:</b>" ::
    (match inv.client with
     | none => []
     | some c =>
       (if c.name ≠ "" then [CellLine.text ("<b>" ++ c.name ++ "</b>")] else []) ++
         (addressLines (Client_full_address c)).map CellLine.text ++
         (if c.phone ≠ "" then [CellLine.text ("Phone: " ++ c.phone)] else []) ++
         (if c.email ≠ "" then [CellLine.text ("Email: " ++ c.email)] else []))

def default_details_rows (inv : Invoice) : List (List Cell) :=
  [[cellS "Invoice Date:", cellS (format_date_for_display inv.invoice_date)],
    [cellS "Due Date:", cellS (format_date_for_display inv.due_date)],
    [cellS "Payment Terms:", cellS inv.payment_terms],
    [cellS "Status:", cellS inv.status]]

def default_items_rows (inv : Invoice) : List (List Cell) :=
  [cellS "Description", cellS "Qty", cellS "Rate", cellS "Amount"] ::
    inv.items.map (itemRow inv.currency)

def default_totals_rows (inv : Invoice) : List (List Cell) :=
  [cellS "Subtotal:", cellS (format_currency inv.subtotal inv.currency)] ::
    ((if 0 < inv.tax_rate then
        [[cellS ("Tax (" ++ format_percentage inv.tax_rate ++ "):"),
          cellS (format_currency inv.tax_amount inv.currency)]]
      else []) ++
      [[cellS "TOTAL:", cellS (format_currency inv.total inv.currency)]])

/-- The footer message of `InvoicePDFGenerator._build_footer`. -/
def default_footer_text (inv : Invoice) : String :=
  if inv.status = "Sent" then
    if inv.payment_terms = "Due on Receipt" then
      "Payment is due upon receipt of this invoice."
    else
      "Payment is due by " ++ format_date_for_display inv.due_date ++
        ". Thank you for your business!"
  else "Thank you for your business!"

/-- `InvoicePDFGenerator._build_footer` (`nowText` is the generation
timestamp string). -/
def default_footer (inv : Invoice) (nowText : String) : List Elem :=
  [Elem.hrule, Elem.spacer, Elem.para (default_footer_text inv), Elem.spacer,
    Elem.para ("<i>Generated on " ++ nowText ++ " by Invoice Generator Pro</i>")]

/-- `InvoicePDFGenerator.generate_invoice_pdf` up to the totals section.
`logo` says whether the logo image exists and loads (its load-failure path
renders the same text header as its absence). -/
def default_main (inv : Invoice) (logo : Bool) : List Elem :=
  [Elem.table
      [[(if logo then [CellLine.image]
          else [CellLine.text
            (if inv.company_name ≠ "" then inv.company_name
              else "Invoice Generator Pro")]),
        [CellLine.text "INVOICE",
          CellLine.text ("#" ++ formatted_invoice_number inv)]]],
    Elem.hrule, Elem.spacer,
    Elem.table [[default_company_cell inv, default_client_cell inv]], Elem.spacer,
    Elem.table (default_details_rows inv), Elem.spacer,
    Elem.table (default_items_rows inv), Elem.spacer,
    Elem.table (default_totals_rows inv), Elem.spacer]

/-- `InvoicePDFGenerator.generate_invoice_pdf`: all sections, a notes block
only when notes is non-empty, then always the footer. -/
def default_story (inv : Invoice) (logo : Bool) (nowText : String) : List Elem :=
  default_main inv logo ++
    (if inv.notes ≠ "" then
      [Elem.para "<b>Notes:</b>", Elem.para inv.notes, Elem.spacer]
    else []) ++
    default_footer inv nowText

/-! ### Template registry (templates.py) -/

inductive TemplateKind where
  | modern
  | classic
  | minimal
deriving DecidableEq

/-- The `AVAILABLE_TEMPLATES` registry. -/
def AVAILABLE_TEMPLATES : List (String × TemplateKind) :=
  [("modern", TemplateKind.modern), ("classic", TemplateKind.classic),
    ("minimal", TemplateKind.minimal)]

/-- `get_template(template_name)`:
`AVAILABLE_TEMPLATES.get(template_name, ModernTemplate())`. -/
def get_template (template_name : String) : TemplateKind :=
  (AVAILABLE_TEMPLATES.lookup template_name).getD TemplateKind.modern

/-- `template.generate_pdf(invoice, ...)` content per template kind. -/
def template_generate : TemplateKind → Invoice → List Elem
  | TemplateKind.modern, inv => modern_story inv
  | TemplateKind.classic, inv => classic_story inv
  | TemplateKind.minimal, inv => minimal_story inv

/-- `generate_invoice_with_template(invoice, template_name, output_path)`. -/
def generate_invoice_with_template (inv : Invoice) (template_name : String) :
    List Elem :=
  template_generate (get_template template_name) inv

/-! ### Content queries -/

/-- Text lines of a cell. -/
def textsOfCell (c : Cell) : List String :=
  c.filterMap fun cl => match cl with
    | CellLine.text t => some t
    | CellLine.image => none

/-- Every text appearing in a story, in order: paragraph texts and table
cell lines. -/
def textsOf (s : List Elem) : List String :=
  (s.map fun e => match e with
    | Elem.para t => [t]
    | Elem.table rows => ((rows.map fun r => (r.map textsOfCell).flatten).flatten)
    | _ => []).flatten

/-- All table rows appearing in a story. -/
def tableRowsOf (s : List Elem) : List (List Cell) :=
  (s.map fun e => match e with
    | Elem.table rows => rows
    | _ => []).flatten

theorem mem_textsOf_para {s : List Elem} {t : String} (h : Elem.para t ∈ s) :
    t ∈ textsOf s := by
  unfold textsOf
  exact List.mem_flatten.mpr ⟨[t], List.mem_map.mpr ⟨Elem.para t, h, rfl⟩, by simp⟩

theorem mem_textsOf_table {s : List Elem} {rows : List (List Cell)} {r : List Cell}
    {c : Cell} {t : String} (hs : Elem.table rows ∈ s) (hr : r ∈ rows) (hc : c ∈ r)
    (ht : CellLine.text t ∈ c) : t ∈ textsOf s := by
  unfold textsOf
  refine List.mem_flatten.mpr ⟨_, List.mem_map.mpr ⟨Elem.table rows, hs, rfl⟩, ?_⟩
  refine List.mem_flatten.mpr ⟨_, List.mem_map.mpr ⟨r, hr, rfl⟩, ?_⟩
  refine List.mem_flatten.mpr ⟨_, List.mem_map.mpr ⟨c, hc, rfl⟩, ?_⟩
  unfold textsOfCell
  exact List.mem_filterMap.mpr ⟨CellLine.text t, ht, rfl⟩

/-! ## Claim C8 -/

/-- C8: selecting any unregistered template name returns the Modern
(default) template, and rendering proceeds with the Modern output — no
error path exists. -/
theorem claim_C8_unknown_template_falls_back (inv : Invoice) (name : String)
    (h1 : name ≠ "modern") (h2 : name ≠ "classic") (h3 : name ≠ "minimal") :
    get_template name = TemplateKind.modern ∧
      generate_invoice_with_template inv name = modern_story inv ∧
      generate_invoice_with_template inv name
        = generate_invoice_with_template inv "modern" := by
  have hb1 : (name == "modern") = false := beq_eq_false_iff_ne.mpr h1
  have hb2 : (name == "classic") = false := beq_eq_false_iff_ne.mpr h2
  have hb3 : (name == "minimal") = false := beq_eq_false_iff_ne.mpr h3
  have hg : get_template name = TemplateKind.modern := by
    simp [get_template, AVAILABLE_TEMPLATES, List.lookup, hb1, hb2, hb3]
  refine ⟨hg, ?_, ?_⟩
  · rw [generate_invoice_with_template, hg]
    rfl
  · rw [generate_invoice_with_template, hg]
    rfl

theorem claim_C8_witness :
    ("xyz" ≠ "modern" ∧ "xyz" ≠ "classic" ∧ "xyz" ≠ "minimal") ∧
      get_template "xyz" = TemplateKind.modern ∧
      generate_invoice_with_template sampleInvoice "xyz"
        = generate_invoice_with_template sampleInvoice "modern" :=
  ⟨⟨by decide, by decide, by decide⟩,
    (claim_C8_unknown_template_falls_back sampleInvoice "xyz"
      (by decide) (by decide) (by decide)).1,
    (claim_C8_unknown_template_falls_back sampleInvoice "xyz"
      (by decide) (by decide) (by decide)).2.2⟩

/-! ## Claim C5 -/

/-- C5 (amended): the Default generator renders every block the claim lists
(invoice number, both party blocks, the 4-column item table with one row per
item, subtotal row always, tax row exactly when the tax rate is positive,
grand total, notes block exactly when notes is non-empty, footer).  Modern
renders the same except that no footer follows the totals/notes.  Classic
renders the same except that its output is independent of the notes field
(no notes block) and always ends with its footer.  Minimal renders only the
invoice number, info rows, a 2-cell description/line-total row per item and
a grand-total row: every one of its table rows has at most 2 cells (so no
quantity/rate columns), and its output is independent of the subtotal, tax,
notes, payment-terms and company fields (so no party, subtotal, tax or notes
blocks and no footer). -/
theorem claim_C5_template_content (inv : Invoice) (logo : Bool) (nowText : String) :
    (("#" ++ formatted_invoice_number inv) ∈ textsOf (default_story inv logo nowText) ∧
      "<b>From:</b>" ∈ textsOf (default_story inv logo nowText) ∧
      "<b>Bill To:</b>" ∈ textsOf (default_story inv logo nowText) ∧
      Elem.table (default_items_rows inv) ∈ default_story inv logo nowText ∧
      default_items_rows inv
        = [cellS "Description", cellS "Qty", cellS "Rate", cellS "Amount"] ::
            inv.items.map (itemRow inv.currency) ∧
      Elem.table (default_totals_rows inv) ∈ default_story inv logo nowText ∧
      default_totals_rows inv
        = [cellS "Subtotal:", cellS (format_currency inv.subtotal inv.currency)] ::
            ((if 0 < inv.tax_rate then
                [[cellS ("Tax (" ++ format_percentage inv.tax_rate ++ "):"),
                  cellS (format_currency inv.tax_amount inv.currency)]]
              else []) ++
              [[cellS "TOTAL:", cellS (format_currency inv.total inv.currency)]]) ∧
      (inv.notes ≠ "" → Elem.para inv.notes ∈ default_story inv logo nowText) ∧
      (inv.notes = "" → default_story inv logo nowText
        = default_main inv logo ++ default_footer inv nowText) ∧
      Elem.para (default_footer_text inv) ∈ default_story inv logo nowText ∧
      (default_story inv logo nowText).getLast?
        = some (Elem.para
            ("<i>Generated on " ++ nowText ++ " by Invoice Generator Pro</i>"))) ∧
    (("Invoice #: " ++ formatted_invoice_number inv) ∈ textsOf (modern_story inv) ∧
      "FROM" ∈ textsOf (modern_story inv) ∧
      "BILL TO" ∈ textsOf (modern_story inv) ∧
      Elem.table (modern_items_rows inv) ∈ modern_story inv ∧
      modern_items_rows inv
        = [cellS "Description", cellS "Qty", cellS "Rate", cellS "Total"] ::
            inv.items.map (itemRow inv.currency) ∧
      Elem.table (modern_totals_rows inv) ∈ modern_story inv ∧
      modern_totals_rows inv
        = [cellS "Subtotal", cellS (format_currency inv.subtotal inv.currency)] ::
            ((if 0 < inv.tax_rate then
                [[cellS ("Tax (" ++ format_percentage inv.tax_rate ++ ")"),
                  cellS (format_currency inv.tax_amount inv.currency)]]
              else []) ++
              [[cellS "TOTAL", cellS (format_currency inv.total inv.currency)]]) ∧
      (inv.notes ≠ "" → Elem.para inv.notes ∈ modern_story inv) ∧
      (inv.notes = "" → modern_story inv = modern_main inv) ∧
      (inv.notes = "" → (modern_story inv).getLast?
        = some (Elem.table (modern_totals_rows inv))) ∧
      (inv.notes ≠ "" → (modern_story inv).getLast? = some (Elem.para inv.notes))) ∧
    (formatted_invoice_number inv ∈ textsOf (classic_story inv) ∧
      Elem.para "From:" ∈ classic_story inv ∧
      Elem.para "Bill To:" ∈ classic_story inv ∧
      Elem.table (classic_items_rows inv) ∈ classic_story inv ∧
      classic_items_rows inv
        = [cellS "Description", cellS "Quantity", cellS "Rate", cellS "Amount"] ::
            inv.items.map (itemRow inv.currency) ∧
      Elem.table (classic_totals_rows inv) ∈ classic_story inv ∧
      classic_totals_rows inv
        = [cellS "Subtotal:", cellS (format_currency inv.subtotal inv.currency)] ::
            ((if 0 < inv.tax_rate then
                [[cellS ("Tax (" ++ format_percentage inv.tax_rate ++ "):"),
                  cellS (format_currency inv.tax_amount inv.currency)]]
              else []) ++
              [[cellS "Total Amount Due:",
                cellS (format_currency inv.total inv.currency)]]) ∧
      (∀ notes', classic_story { inv with notes := notes' } = classic_story inv) ∧
      (classic_story inv).getLast? = some (Elem.para "Thank you for your business.")) ∧
    (("#" ++ formatted_invoice_number inv) ∈ textsOf (minimal_story inv) ∧
      Elem.table [[cellS "Total", cellS (format_currency inv.total inv.currency)]]
        ∈ minimal_story inv ∧
      (∀ it ∈ inv.items,
        Elem.table [[cellS it.description,
          cellS (format_currency (itemTotal it) inv.currency)]] ∈ minimal_story inv) ∧
      (∀ rows, Elem.table rows ∈ minimal_story inv → ∀ r ∈ rows, r.length ≤ 2) ∧
      (∀ s t a nt pt cn ca cp ce cw,
        minimal_story { inv with
          subtotal := s
          tax_rate := t
          tax_amount := a
          notes := nt
          payment_terms := pt
          company_name := cn
          company_address := ca
          company_phone := cp
          company_email := ce
          company_website := cw }
          = minimal_story inv)) := by
  refine ⟨⟨?_, ?_, ?_, ?_, rfl, ?_, rfl, ?_, ?_, ?_, ?_⟩,
    ⟨?_, ?_, ?_, ?_, rfl, ?_, rfl, ?_, ?_, ?_, ?_⟩,
    ⟨?_, ?_, ?_, ?_, rfl, ?_, rfl, fun _ => rfl, ?_⟩,
    ⟨?_, ?_, ?_, ?_, fun s t a nt pt cn ca cp ce cw => rfl⟩⟩
  · simp [textsOf, default_story, default_main, default_footer, textsOfCell, cellS]
  · simp [textsOf, default_story, default_main, default_footer, default_company_cell,
      textsOfCell, cellS]
  · simp [textsOf, default_story, default_main, default_footer, default_client_cell,
      textsOfCell, cellS]
  · simp [default_story, default_main]
  · simp [default_story, default_main]
  · intro h
    simp [default_story, h]
  · intro h
    rw [default_story, if_neg (by simp [h]), List.append_nil]
  · simp [default_story, default_footer]
  · rw [default_story, List.getLast?_append, List.getLast?_append]
    rfl
  · simp [textsOf, modern_story, modern_main, textsOfCell, cellS]
  · simp [textsOf, modern_story, modern_main, modern_info_from, textsOfCell, cellS]
  · simp [textsOf, modern_story, modern_main, modern_info_to, textsOfCell, cellS]
  · simp [modern_story, modern_main]
  · simp [modern_story, modern_main]
  · intro h
    simp [modern_story, h]
  · intro h
    rw [modern_story, if_neg (by simp [h]), List.append_nil]
  · intro h
    rw [modern_story, if_neg (by simp [h]), List.append_nil]
    rfl
  · intro h
    rw [modern_story, if_pos h, List.getLast?_append]
    rfl
  · simp [textsOf, classic_story, classic_details_rows, textsOfCell, cellS]
  · simp [classic_story, classic_info_elems]
  · simp [classic_story, classic_info_elems]
  · simp [classic_story]
  · simp [classic_story]
  · rw [classic_story, List.getLast?_append]
    rfl
  · simp [textsOf, minimal_story, minimal_info_rows, textsOfCell, cellS]
  · simp [minimal_story]
  · intro it hit
    exact List.mem_append_left _ (List.mem_append_right _
      (List.mem_map.mpr ⟨it, hit, rfl⟩))
  · intro rows hmem r hr
    simp [minimal_story] at hmem
    rcases hmem with hrows | ⟨it, _, hrows⟩ | hrows
    · subst hrows
      simp only [minimal_info_rows] at hr
      rcases hcl : inv.client with _ | c
      · rw [hcl] at hr
        simp at hr
        rcases hr with rfl | rfl | rfl <;> simp
      · rw [hcl] at hr
        by_cases hname : c.name = ""
        · simp [hname] at hr
          rcases hr with rfl | rfl | rfl <;> simp
        · simp [hname] at hr
          rcases hr with rfl | rfl | rfl | rfl <;> simp
    · rw [← hrows] at hr
      simp at hr
      subst hr
      simp
    · subst hrows
      simp at hr
      subst hr
      simp

/-- A concrete invoice with a positive tax rate, non-empty notes, a client,
and two items (rates 2.30 and 4.20, subtotal 6.50, tax 0.65, total 7.15). -/
def inv0C5 : Invoice :=
  { id := some 1
    invoice_number := "INV-0001"
    client := some ⟨"Bob", "", "", "", "", "", "", ""⟩
    invoice_date := some ⟨700000, 0⟩
    due_date := some ⟨700030, 0⟩
    status := "Draft"
    items := [⟨"Design", 1, 23/10, 23/10⟩, ⟨"Hosting", 1, 21/5, 21/5⟩]
    subtotal := 13/2
    tax_rate := 1/10
    tax_amount := 13/20
    total := 143/20
    notes := "Pay soon"
    payment_terms := "Net 30"
    currency := "USD"
    updated_date := ⟨700000, 0⟩
    company_name := "Acme"
    company_address := "1 Way"
    company_phone := ""
    company_email := ""
    company_website := "" }

theorem format_currency_230 : format_currency (23/10 : ℚ) "USD" = "$2.30" := by
  have hc : roundHalfEvenCents (23/10 : ℚ) = 230 := by
    rw [show (23/10 : ℚ) = ((230 : ℤ) : ℚ) / 100 by norm_num]
    exact roundHalfEvenCents_cent 230
  simp only [format_currency, pyFormatComma2f]
  rw [if_neg (by norm_num), hc]
  rfl

theorem format_currency_420 : format_currency (21/5 : ℚ) "USD" = "$4.20" := by
  have hc : roundHalfEvenCents (21/5 : ℚ) = 420 := by
    rw [show (21/5 : ℚ) = ((420 : ℤ) : ℚ) / 100 by norm_num]
    exact roundHalfEvenCents_cent 420
  simp only [format_currency, pyFormatComma2f]
  rw [if_neg (by norm_num), hc]
  rfl

theorem format_currency_715 : format_currency (143/20 : ℚ) "USD" = "$7.15" := by
  have hc : roundHalfEvenCents (143/20 : ℚ) = 715 := by
    rw [show (143/20 : ℚ) = ((715 : ℤ) : ℚ) / 100 by norm_num]
    exact roundHalfEvenCents_cent 715
  simp only [format_currency, pyFormatComma2f]
  rw [if_neg (by norm_num), hc]
  rfl

theorem itemTotal_design :
    itemTotal ⟨"Design", 1, 23/10, 23/10⟩ = 23/10 := by
  simp only [itemTotal]
  rw [show (1 : ℚ) * (23/10) = ((230 : ℤ) : ℚ) / 100 by norm_num, pyRound2,
    roundHalfEvenCents_cent]
  norm_num

theorem itemTotal_hosting :
    itemTotal ⟨"Hosting", 1, 21/5, 21/5⟩ = 21/5 := by
  simp only [itemTotal]
  rw [show (1 : ℚ) * (21/5) = ((420 : ℤ) : ℚ) / 100 by norm_num, pyRound2,
    roundHalfEvenCents_cent]
  norm_num

/-- The fully evaluated Minimal story of `inv0C5`. -/
theorem minimal_story_inv0C5 :
    minimal_story inv0C5 =
      [Elem.spacer, Elem.para "Invoice", Elem.spacer,
        Elem.table
          [[cellS "#INV-0001", cellS ""],
            [cellS "date 700000,0", cellS ""],
            [cellS "", cellS ""],
            [cellS "For: Bob", cellS ""]],
        Elem.spacer,
        Elem.table [[cellS "Design", cellS "$2.30"]],
        Elem.table [[cellS "Hosting", cellS "$4.20"]],
        Elem.spacer,
        Elem.table [[cellS "Total", cellS "$7.15"]]] := by
  simp only [minimal_story, minimal_info_rows, inv0C5, List.map_cons, List.map_nil,
    itemTotal_design, itemTotal_hosting, format_currency_230, format_currency_420,
    format_currency_715]
  rfl

/-- C5 counterexample: the claim requires every template variant to render a
subtotal row, a tax row when the tax rate is positive, quantity and rate
columns, and a notes block when notes is non-empty; on `inv0C5` (tax rate
0.10 > 0, notes "Pay soon") the Minimal template renders none of these: no
"Subtotal"/"Subtotal:" cell, no tax amount "$0.65", no notes text, and no
4-column item row at all. -/
theorem claim_C5_counterexample :
    inv0C5.notes = "Pay soon" ∧ (0 : ℚ) < inv0C5.tax_rate ∧
      "Subtotal" ∉ textsOf (minimal_story inv0C5) ∧
      "Subtotal:" ∉ textsOf (minimal_story inv0C5) ∧
      "Pay soon" ∉ textsOf (minimal_story inv0C5) ∧
      "$0.65" ∉ textsOf (minimal_story inv0C5) ∧
      ((tableRowsOf (minimal_story inv0C5)).all fun r => r.length != 4) = true := by
  refine ⟨rfl, by norm_num [inv0C5], ?_, ?_, ?_, ?_, ?_⟩ <;>
    rw [minimal_story_inv0C5] <;> decide

theorem claim_C3_witness :
    calculate_line_total 2 (13/4) ∈ (calculate_invoice_total [⟨2, 13/4⟩] (1/10)).line_totals ∧
      isCent (calculate_line_total 2 (13/4)) :=
  ⟨by simp [calculate_invoice_total, invoice_line_totals],
    (claim_C3_rounding_policy.1 [⟨2, 13/4⟩] (1/10)).1 _
      (by simp [calculate_invoice_total, invoice_line_totals])⟩

theorem claim_C5_witness :
    sampleInvoice.notes = "" ∧
      modern_story sampleInvoice = modern_main sampleInvoice ∧
      Elem.para (default_footer_text sampleInvoice)
        ∈ default_story sampleInvoice false "ts" := by
  obtain ⟨hd, hm, hc, hmin⟩ := claim_C5_template_content sampleInvoice false "ts"
  exact ⟨rfl, hm.2.2.2.2.2.2.2.2.1 rfl, hd.2.2.2.2.2.2.2.2.2.1⟩

end InvoiceGen
